import Mathlib

/-
Verification development for the keda scaler core: a shallow embedding of
src/pkg/scalers/gcp_storage_scaler.go and src/pkg/scalers/predictkube_scaler.go,
with theorems settling the frozen specification claims.

Modelling conventions:
- Go int64 values are Lean Int (no overflow occurs in the quantities involved);
  Go float64 sample values are Lean Rat, with the Go float64-to-int64 conversion
  modelled as truncation toward zero.
- The GCS object iterator is modelled as a list of steps: `none` is a
  successfully returned item, `some msg` is an enumeration error with message
  msg; the end of the list is iterator.Done.
- Fallible Go calls whose outcome is external (gRPC predict call, health probe,
  Prometheus query) are passed in as Except / outcome values.
-/

namespace KedaSpec

/-- Item mirrors commonproto.Item as used by parsePrometheusResult: a timestamp,
a float64 value (modelled as Rat) and a metric name. -/
structure Item where
  timestamp : Int
  value : Rat
  metricName : String
deriving Repr, DecidableEq

/-- ratFloor is the floor of a rational, written out so that it evaluates in
the kernel; it agrees with the Mathlib floor (see ratFloor_eq_floor). -/
def ratFloor (q : Rat) : Int :=
  q.num / q.den

/-- ratCeil is the ceiling of a rational, written out so that it evaluates in
the kernel; it agrees with the Mathlib ceiling (see ratCeil_eq_ceil). -/
def ratCeil (q : Rat) : Int :=
  -ratFloor (-q)

/-- goFloatToInt64 models the Go conversion int64(f) for a float64 f: truncation
toward zero (overflow and NaN are out of the modelled range). -/
def goFloatToInt64 (q : Rat) : Int :=
  if q < 0 then ratCeil q else ratFloor q

/-- listStartsHere checks that the first list is an initial segment of the
second. -/
def listStartsHere : List Char → List Char → Bool
  | [], _ => true
  | _ :: _, [] => false
  | c :: cs, d :: ds => c == d && listStartsHere cs ds

/-- listContainsSub checks that the first list occurs contiguously inside the
second. -/
def listContainsSub (sub : List Char) : List Char → Bool
  | [] => listStartsHere sub []
  | c :: rest => listStartsHere sub (c :: rest) || listContainsSub sub rest

/-- goStringsContains models strings.Contains: substring containment. -/
def goStringsContains (s sub : String) : Bool :=
  listContainsSub sub.toList s.toList

/-- bucketNotExist is the error classification in getItemCount, source line 205:
strings.Contains(err.Error(), the bucket-does-not-exist phrase). -/
def bucketNotExist (msg : String) : Bool :=
  goStringsContains msg ("bucket doesn\x27t exist")

/-- getItemCountLoop embeds the enumeration loop of gcsScaler.getItemCount
(gcp_storage_scaler.go lines 199 to 213): while count < maxCount, pull the next
iterator step; Done ends with (count, nil); a bucket-missing error returns
(0, nil); any other error returns (count, err); an item increments count. -/
def getItemCountLoop (maxCount : Int) : List (Option String) → Int → Int × Option String
  | steps, count =>
    if count < maxCount then
      match steps with
      | [] => (count, none)
      | some msg :: _ =>
        if bucketNotExist msg then (0, none) else (count, some msg)
      | none :: rest => getItemCountLoop maxCount rest (count + 1)
    else
      (count, none)

/-- getItemCount embeds gcsScaler.getItemCount: count starts at 0. The
SetAttrSelection step never fails for the fixed attribute list and is elided. -/
def getItemCount (steps : List (Option String)) (maxCount : Int) : Int × Option String :=
  getItemCountLoop maxCount steps 0

/-- pureBucket n is an iterator over a bucket holding exactly n items and
producing no enumeration error. -/
def pureBucket (n : Nat) : List (Option String) :=
  List.replicate n none

/-- gcsMetadata mirrors the parsed GCS scaler metadata record. -/
structure gcsMetadata where
  bucketName : String
  maxBucketItemsToScan : Int
  targetObjectCount : Int
  metricName : String
deriving Repr, DecidableEq

/-- gcsIsActive embeds gcsScaler.IsActive (lines 143 to 150): calls
getItemCount with a scan bound of literally 1; on error returns (false, err),
otherwise (items > 0, nil). The metadata is taken as an argument to make its
non-use explicit. -/
def gcsIsActive (_meta : gcsMetadata) (steps : List (Option String)) : Bool × Option String :=
  match getItemCount steps 1 with
  | (_, some e) => (false, some e)
  | (items, none) => (decide (0 < items), none)

/-- gcsGetMetrics embeds gcsScaler.GetMetrics (lines 172 to 185): calls
getItemCount with the configured maxBucketItemsToScan; on error returns the
empty list and the error, otherwise a single metric carrying the count, with
no zero-value check. -/
def gcsGetMetrics (maxScan : Int) (steps : List (Option String)) : List Int × Option String :=
  match getItemCount steps maxScan with
  | (_, some e) => ([], some e)
  | (items, none) => ([items], none)

/-- digitVal gives the numeric value of a decimal digit character. -/
def digitVal (c : Char) : Option Nat :=
  if c.isDigit then some (c.toNat - 48) else none

/-- parseDigits reads a nonempty all-digit character list as a Nat. -/
def parseDigits (cs : List Char) : Option Nat :=
  if cs.isEmpty then none
  else
    cs.foldl
      (fun acc c =>
        match acc, digitVal c with
        | some n, some d => some (n * 10 + d)
        | _, _ => none)
      (some 0)

/-- parseGoInt64 : Modelled from the spec: strconv.ParseInt / strconv.Atoi
(library code not under src), per the spec rule "parseable signed 64-bit
integer": optional sign, base-10 digits, 64-bit range check. -/
def parseGoInt64 (s : String) : Option Int :=
  let cs := s.toList
  let signed : Int × List Char :=
    match cs with
    | '+' :: rest => (1, rest)
    | '-' :: rest => (-1, rest)
    | _ => (1, cs)
  match parseDigits signed.2 with
  | none => none
  | some n =>
    let v : Int := signed.1 * n
    if v < -(2 ^ 63) ∨ 2 ^ 63 - 1 < v then none else some v

/-- unitNs : Modelled from the spec: the duration units accepted by the
str2duration library (not under src), mapped to nanoseconds. -/
def unitNs : String → Option Int
  | "ns" => some 1
  | "us" => some 1000
  | "ms" => some 1000000
  | "s" => some 1000000000
  | "m" => some 60000000000
  | "h" => some 3600000000000
  | "d" => some 86400000000000
  | "w" => some 604800000000000
  | _ => none

/-- parseDurationStr : Modelled from the spec: str2duration.ParseDuration
(library code not under src), per the spec rule "parseable duration": digits
followed by a unit, in nanoseconds; the bare string 0 parses to 0. -/
def parseDurationStr (s : String) : Option Int :=
  let cs := s.toList
  let ds := cs.takeWhile (fun c => c.isDigit)
  let rest := cs.dropWhile (fun c => c.isDigit)
  match parseDigits ds with
  | none => none
  | some n =>
    if rest.isEmpty then
      if n = 0 then some 0 else none
    else
      match unitNs (String.mk rest) with
      | none => none
      | some u => some ((n : Int) * u)

/-- validateURL : Modelled from the spec: the validator library rule url (not
under src), per the spec rule "well-formed URL": an http or https scheme. -/
def validateURL (s : String) : Bool :=
  listStartsHere ("http://".toList) s.toList || listStartsHere ("https://".toList) s.toList

/-- splitOnDot splits a character list at every dot. -/
def splitOnDot : List Char → List (List Char)
  | [] => [[]]
  | c :: rest =>
    let r := splitOnDot rest
    if c == '.' then [] :: r
    else
      match r with
      | [] => [[c]]
      | seg :: segs => (c :: seg) :: segs

/-- validateJWT : Modelled from the spec: the validator library rule jwt (not
under src), per the spec rule "well-formed signed-token format": three
nonempty dot-separated segments. -/
def validateJWT (s : String) : Bool :=
  let parts := splitOnDot s.toList
  parts.length == 3 && parts.all (fun p => !p.isEmpty)

/-- getAuthConfigs : Modelled from the spec: authentication.GetAuthConfigs is
not under src and the spec does not constrain it beyond producing an auth
record; modelled as always succeeding. -/
def getAuthConfigs (_trigger _auth : List (String × String)) : Except String Unit :=
  .ok ()

/-- mkGcsMetricName : Modelled from the spec: kedautil.NormalizeString and
GenerateMetricNameWithIndex are not under src; the spec only requires an
index-qualified deterministic name. -/
def mkGcsMetricName (index : Nat) (bucketName : String) : String :=
  "s" ++ toString index ++ "-gcp-storage-" ++ bucketName

/-- ScalerConfig mirrors the fields of ScalerConfig consumed by the two
parsers: trigger metadata and auth params as association lists, plus the
scaler index. -/
structure ScalerConfig where
  triggerMetadata : List (String × String)
  authParams : List (String × String)
  scalerIndex : Nat
deriving Repr

/-- parseGcsMetadata embeds parseGcsMetadata (gcp_storage_scaler.go lines 93 to
140): bucketName required and nonempty; targetObjectCount optional with
default 100; maxBucketItemsToScan optional with default 1000, any parseable
integer accepted; then auth and the derived metric name. -/
def parseGcsMetadata (config : ScalerConfig) : Except String gcsMetadata :=
  match config.triggerMetadata.lookup ("bucketName") with
  | none => .error ("no bucket name given")
  | some bucket =>
    if bucket = "" then .error ("no bucket name given")
    else
      let targetRes : Except String Int :=
        match config.triggerMetadata.lookup ("targetObjectCount") with
        | none => .ok (100 : Int)
        | some v =>
          match parseGoInt64 v with
          | none => .error ("error parsing targetObjectCount")
          | some n => .ok n
      match targetRes with
      | .error e => .error e
      | .ok target =>
        let maxScanRes : Except String Int :=
          match config.triggerMetadata.lookup ("maxBucketItemsToScan") with
          | none => .ok (1000 : Int)
          | some v =>
            match parseGoInt64 v with
            | none => .error ("error parsing maxBucketItemsToScan")
            | some n => .ok n
        match maxScanRes with
        | .error e => .error e
        | .ok maxScan =>
          match getAuthConfigs config.triggerMetadata config.authParams with
          | .error e => .error e
          | .ok _ =>
            .ok { bucketName := bucket
                  maxBucketItemsToScan := maxScan
                  targetObjectCount := target
                  metricName := mkGcsMetricName config.scalerIndex bucket }

/-- newGcsScaler embeds the NewGcsScaler constructor flow (lines 48 to 91):
metric target type resolution, then metadata parsing, then the storage client
connection. The second component records whether a backend connection was
attempted; the outcomes of the non-modelled external steps are arguments. -/
def newGcsScaler (config : ScalerConfig) (metricTypeOk clientOk : Bool) :
    Except String gcsMetadata × Bool :=
  if metricTypeOk = false then (.error ("error getting scaler metric type"), false)
  else
    match parseGcsMetadata config with
    | .error e => (.error ("error parsing GCP storage metadata: " ++ e), false)
    | .ok meta =>
      if clientOk = false then (.error ("storage.NewClient failed"), true)
      else (.ok meta, true)

/-- predictKubeMetadata mirrors the parsed PredictKube metadata record;
durations are in nanoseconds, as Go time.Duration is. -/
structure predictKubeMetadata where
  predictHorizon : Int
  historyTimeWindow : Int
  stepDuration : Int
  apiKey : String
  prometheusAddress : String
  query : String
  threshold : Int
  scalerIndex : Nat
deriving Repr, DecidableEq

/-- parsePredictKubeMetadata embeds parsePredictKubeMetadata
(predictkube_scaler.go lines 377 to 458), checking fields in source order:
query, prometheusAddress, predictHorizon, queryStep, historyTimeWindow,
threshold, apiKey, then the auth configs. -/
def parsePredictKubeMetadata (config : ScalerConfig) : Except String predictKubeMetadata :=
  match config.triggerMetadata.lookup ("query") with
  | none => .error ("no query given")
  | some query =>
    if query.length = 0 then .error ("no query given")
    else
      match config.triggerMetadata.lookup ("prometheusAddress") with
      | none => .error ("no prometheusAddress given")
      | some addr =>
        if validateURL addr = false then .error ("invalid prometheusAddress")
        else
          match config.triggerMetadata.lookup ("predictHorizon") with
          | none => .error ("no predictHorizon given")
          | some phs =>
            match parseDurationStr phs with
            | none => .error ("predictHorizon parsing error")
            | some ph =>
              match config.triggerMetadata.lookup ("queryStep") with
              | none => .error ("no queryStep given")
              | some qss =>
                match parseDurationStr qss with
                | none => .error ("queryStep parsing error")
                | some qs =>
                  match config.triggerMetadata.lookup ("historyTimeWindow") with
                  | none => .error ("no historyTimeWindow given")
                  | some hts =>
                    match parseDurationStr hts with
                    | none => .error ("historyTimeWindow parsing error")
                    | some ht =>
                      match config.triggerMetadata.lookup ("threshold") with
                      | none => .error ("no threshold given")
                      | some ths =>
                        match parseGoInt64 ths with
                        | none => .error ("threshold parsing error")
                        | some th =>
                          match config.authParams.lookup ("apiKey") with
                          | none => .error ("no api key given")
                          | some key =>
                            if validateJWT key = false then .error ("invalid apiKey")
                            else
                              match getAuthConfigs config.triggerMetadata config.authParams with
                              | .error e => .error e
                              | .ok _ =>
                                .ok { predictHorizon := ph
                                      historyTimeWindow := ht
                                      stepDuration := qs
                                      apiKey := key
                                      prometheusAddress := addr
                                      query := query
                                      threshold := th
                                      scalerIndex := config.scalerIndex }

/-- newPredictKubeScaler embeds the NewPredictKubeScaler constructor flow
(lines 143 to 175): metric target type, metadata parsing, the Prometheus
connection, then the gRPC connection. The second component records whether any
backend connection was attempted. -/
def newPredictKubeScaler (config : ScalerConfig) (metricTypeOk promConnOk grpcConnOk : Bool) :
    Except String predictKubeMetadata × Bool :=
  if metricTypeOk = false then (.error ("error getting scaler metric type"), false)
  else
    match parsePredictKubeMetadata config with
    | .error e => (.error ("error parsing PredictKube metadata: " ++ e), false)
    | .ok meta =>
      if promConnOk = false then (.error ("error create Prometheus client and API objects"), true)
      else if grpcConnOk = false then (.error ("error init GRPC client"), true)
      else (.ok meta, true)

/-- goMax embeds the anonymous comparison closure at the end of
doPredictRequest: if x < y then y else x. -/
def goMax (x y : Int) : Int :=
  if x < y then y else x

/-- lastObserved embeds lines 262 to 265 of doPredictRequest and 194 to 197 of
IsActive: y is 0, and when the result list is nonempty, the int64 conversion
of the value of its final element. -/
def lastObserved (results : List Item) : Int :=
  match results.getLast? with
  | none => 0
  | some it => goFloatToInt64 it.value

/-- doPredictRequest embeds PredictKubeScaler.doPredictRequest (lines 247 to
275): a query error or predict-call error propagates as the error with value
0 discarded; on success the value is goMax of the predicted metric and the
last observed value. -/
def doPredictRequest (queryRes : Except String (List Item)) (predictRes : Except String Int) :
    Except String Int :=
  match queryRes with
  | .error e => .error e
  | .ok results =>
    match predictRes with
    | .error e => .error e
    | .ok x => .ok (goMax x (lastObserved results))

/-- predictKubeGetMetrics embeds PredictKubeScaler.GetMetrics (lines 221 to
245): a doPredictRequest error yields the empty list and the error; a computed
value of exactly 0 yields the empty (nil) list and the dedicated error;
otherwise a single metric carrying the value. -/
def predictKubeGetMetrics (queryRes : Except String (List Item))
    (predictRes : Except String Int) : List Int × Option String :=
  match doPredictRequest queryRes predictRes with
  | .error e => ([], some e)
  | .ok value =>
    if value = 0 then ([], some ("empty response after predict request"))
    else ([value], none)

/-- HealthOutcome is the outcome of the gRPC health probe in IsActive: a nil
response, a non-nil response with an error, or a healthy response. -/
inductive HealthOutcome where
  | healthy : HealthOutcome
  | respNil : HealthOutcome
  | errResp (e : String) : HealthOutcome
deriving Repr, DecidableEq

/-- predictKubeIsActive embeds PredictKubeScaler.IsActive (lines 178 to 200):
a query error yields (false, err); a nil probe response or probe error yields
(len(results) > 0, err); a healthy probe yields (lastObserved > 0, nil). -/
def predictKubeIsActive (queryRes : Except String (List Item)) (h : HealthOutcome) :
    Bool × Option String :=
  match queryRes with
  | .error e => (false, some e)
  | .ok results =>
    match h with
    | .respNil =>
      (decide (0 < results.length), some ("can\x27t connect grpc server: empty server response, code: Unknown"))
    | .errResp e =>
      (decide (0 < results.length), some ("can\x27t connect grpc server: " ++ e))
    | .healthy => (decide (0 < lastObserved results), none)

/-- defaultStep is the package-level default step: 5 minutes in nanoseconds. -/
def defaultStep : Int := 300000000000

/-- effectiveStepDuration embeds the substitution at the top of doQuery (lines
280 to 282): a zero stepDuration is replaced by defaultStep before use. -/
def effectiveStepDuration (step : Int) : Int :=
  if step = 0 then defaultStep else step

/-- mathRound models Go math.Round: round half away from zero. -/
def mathRound (q : Rat) : Int :=
  if q < 0 then -ratFloor (-q + 1 / 2) else ratFloor (q + 1 / 2)

/-- forecastHorizonSent embeds the ForecastHorizon argument built at line 254:
math.Round applied to the float64 of the Go integer division of the two
durations, after doQuery has substituted the default step. The uint64
conversion is elided (the modelled quantity is the numeric value). -/
def forecastHorizonSent (predictHorizon step : Int) : Int :=
  mathRound ((Int.tdiv predictHorizon (effectiveStepDuration step) : Int) : Rat)

/-- specRoundHorizon is the horizon as the spec words it (a refinement
comparison definition, from the spec, not the source): round of the exact
quotient predictHorizon / d. -/
def specRoundHorizon (predictHorizon step : Int) : Int :=
  mathRound ((predictHorizon : Rat) / (effectiveStepDuration step : Rat))

/-- invalidMetricTypeErr is the constant error string at line 44. -/
def invalidMetricTypeErr : String := "metric type is invalid"

/-- parseGoFloat : Modelled from the spec: strconv.ParseFloat (library code
not under src), per the spec rule "parsed as a base-10 floating point number":
optional sign, digits with an optional fractional part. -/
def parseGoFloat (s : String) : Option Rat :=
  let cs := s.toList
  let body : List Char :=
    match cs with
    | '+' :: rest => rest
    | '-' :: rest => rest
    | _ => cs
  let neg : Bool :=
    match cs with
    | '-' :: _ => true
    | _ => false
  let ip := body.takeWhile (fun c => c.isDigit)
  let rest := body.dropWhile (fun c => c.isDigit)
  let mag : Option Rat :=
    match rest with
    | [] => (parseDigits ip).map (fun n => (n : Rat))
    | '.' :: fp =>
      if fp.all (fun c => c.isDigit) then
        (parseDigits (ip ++ fp)).map (fun n => (n : Rat) / ((10 : Rat) ^ fp.length))
      else none
    | _ => none
  mag.map (fun v => if neg then -v else v)

/-- PromValue mirrors the shapes of the Prometheus model.Value consumed by
parsePrometheusResult: instant vector, range matrix, scalar, string, or an
unrecognized shape (model.ValNone). Samples are (timestamp, value) pairs. -/
inductive PromValue where
  | vector (samples : List (Int × Rat)) : PromValue
  | matrix (series : List (List (Int × Rat))) : PromValue
  | scalarVal (sample : Int × Rat) : PromValue
  | strVal (timestamp : Int) (raw : String) : PromValue
  | noneVal : PromValue

/-- mkItem builds the commonproto.Item appended for one sample. -/
def mkItem (metricName : String) (s : Int × Rat) : Item :=
  { timestamp := s.1, value := s.2, metricName := metricName }

/-- parsePrometheusResult embeds PredictKubeScaler.parsePrometheusResult
(lines 304 to 375): vector and matrix loops append one Item per sample in
source order (series order, then in-series order); scalar yields one Item; a
string sample is float-parsed and fails the call when unparseable; any other
shape is the invalid-metric-type error. The timestamp adaptation never fails
for in-range times and is modelled as exact. -/
def parsePrometheusResult (metricName : String) (result : PromValue) :
    Except String (List Item) :=
  match result with
  | .vector samples =>
    .ok (samples.foldl (fun out v => out ++ [mkItem metricName v]) [])
  | .matrix series =>
    .ok (series.foldl (fun out ser => ser.foldl (fun o v => o ++ [mkItem metricName v]) out) [])
  | .scalarVal s => .ok [mkItem metricName s]
  | .strVal t raw =>
    match parseGoFloat raw with
    | none => .error ("float parsing error")
    | some v => .ok [mkItem metricName (t, v)]
  | .noneVal => .error invalidMetricTypeErr

/-- removeKey drops every entry with the given key from an association list. -/
def removeKey (k : String) (l : List (String × String)) : List (String × String) :=
  l.filter (fun p => p.1 != k)

/-- validPKConfig is a configuration in which every PredictKube field is
present and valid. -/
def validPKConfig : ScalerConfig :=
  { triggerMetadata :=
      [("query", "up"), ("prometheusAddress", "http://localhost:9090"),
       ("predictHorizon", "2h"), ("queryStep", "5m"), ("historyTimeWindow", "7d"),
       ("threshold", "100")]
    authParams := [("apiKey", "aaa.bbb.ccc")]
    scalerIndex := 0 }

/-- validGcsConfig is a configuration in which every GCS field is present and
valid. -/
def validGcsConfig : ScalerConfig :=
  { triggerMetadata := [("bucketName", "test-bucket"), ("maxBucketItemsToScan", "3")]
    authParams := []
    scalerIndex := 0 }

/-- pkMissingCases pairs each required PredictKube trigger-metadata field with
the error message the parser produces when it is absent. -/
def pkMissingCases : List (String × String) :=
  [("query", "no query given"),
   ("prometheusAddress", "no prometheusAddress given"),
   ("predictHorizon", "no predictHorizon given"),
   ("queryStep", "no queryStep given"),
   ("historyTimeWindow", "no historyTimeWindow given"),
   ("threshold", "no threshold given")]

/-- gcsConfigWithMaxScan is a valid GCS configuration whose
maxBucketItemsToScan raw value is the given string. -/
def gcsConfigWithMaxScan (s : String) : ScalerConfig :=
  { triggerMetadata := [("bucketName", "test-bucket"), ("maxBucketItemsToScan", s)]
    authParams := []
    scalerIndex := 0 }

/- Helper lemmas. -/

/-- getItemCountLoop on an exhausted iterator returns the running count. -/
theorem getItemCountLoop_nil (m c : Int) : getItemCountLoop m [] c = (c, none) := by
  conv_lhs => unfold getItemCountLoop
  split <;> rfl

/-- getItemCountLoop on an item step either recurses with an incremented count
or stops at the bound. -/
theorem getItemCountLoop_cons_none (m c : Int) (rest : List (Option String)) :
    getItemCountLoop m (none :: rest) c =
      if c < m then getItemCountLoop m rest (c + 1) else (c, none) := by
  conv_lhs => unfold getItemCountLoop

/-- getItemCountLoop on an error step classifies the error or stops at the
bound. -/
theorem getItemCountLoop_cons_some (m c : Int) (msg : String) (rest : List (Option String)) :
    getItemCountLoop m (some msg :: rest) c =
      if c < m then (if bucketNotExist msg then (0, none) else (c, some msg))
      else (c, none) := by
  conv_lhs => unfold getItemCountLoop

/-- getItemCountLoop never returns a count above a nonnegative bound when the
running count starts at or below it. -/
theorem getItemCountLoop_le (m : Int) (h0 : 0 ≤ m) :
    ∀ (steps : List (Option String)) (c : Int), c ≤ m →
      (getItemCountLoop m steps c).1 ≤ m := by
  intro steps
  induction steps with
  | nil =>
    intro c hc
    rw [getItemCountLoop_nil]
    exact hc
  | cons head rest ih =>
    intro c hc
    cases head with
    | none =>
      rw [getItemCountLoop_cons_none]
      by_cases hlt : c < m
      · rw [if_pos hlt]
        exact ih (c + 1) (by omega)
      · rw [if_neg hlt]
        exact hc
    | some msg =>
      rw [getItemCountLoop_cons_some]
      by_cases hlt : c < m
      · rw [if_pos hlt]
        by_cases hb : bucketNotExist msg
        · rw [if_pos hb]
          exact h0
        · rw [if_neg hb]
          exact hc
      · rw [if_neg hlt]
        exact hc

/-- getItemCountLoop over enough error-free items saturates at the bound. -/
theorem getItemCountLoop_saturate (m : Int) :
    ∀ (n : Nat) (c : Int), c ≤ m → m ≤ c + n →
      getItemCountLoop m (List.replicate n none) c = (m, none) := by
  intro n
  induction n with
  | zero =>
    intro c hc hm
    rw [List.replicate_zero, getItemCountLoop_nil]
    have : c = m := by omega
    rw [this]
  | succ k ih =>
    intro c hc hm
    rw [List.replicate_succ, getItemCountLoop_cons_none]
    by_cases hlt : c < m
    · rw [if_pos hlt]
      exact ih (c + 1) (by omega) (by push_cast at hm; omega)
    · rw [if_neg hlt]
      have : c = m := by omega
      rw [this]

/-- getItemCountLoop over too few error-free items returns the exact count. -/
theorem getItemCountLoop_exhaust (m : Int) :
    ∀ (n : Nat) (c : Int), c + n ≤ m →
      getItemCountLoop m (List.replicate n none) c = (c + n, none) := by
  intro n
  induction n with
  | zero =>
    intro c hc
    rw [List.replicate_zero, getItemCountLoop_nil]
    simp
  | succ k ih =>
    intro c hc
    rw [List.replicate_succ, getItemCountLoop_cons_none]
    have hlt : c < m := by push_cast at hc; omega
    rw [if_pos hlt, ih (c + 1) (by push_cast at hc ⊢; omega)]
    have : c + 1 + (k : Int) = c + ((k : Nat) + 1 : Nat) := by push_cast; ring
    rw [this]

/-- getItemCountLoop hitting an error step while under the bound classifies
it: a bucket-missing error yields (0, none), any other error yields the
partial count with the error. -/
theorem getItemCountLoop_err (m : Int) (msg : String) (rest : List (Option String)) :
    ∀ (k : Nat) (c : Int), c + k < m →
      getItemCountLoop m (List.replicate k none ++ some msg :: rest) c =
        if bucketNotExist msg then (0, none) else (c + k, some msg) := by
  intro k
  induction k with
  | zero =>
    intro c hc
    rw [List.replicate_zero, List.nil_append, getItemCountLoop_cons_some]
    rw [if_pos (by omega)]
    simp
  | succ k ih =>
    intro c hc
    rw [List.replicate_succ, List.cons_append, getItemCountLoop_cons_none]
    have hlt : c < m := by push_cast at hc; omega
    rw [if_pos hlt, ih (c + 1) (by push_cast at hc ⊢; omega)]
    have : c + 1 + (k : Int) = c + ((k : Nat) + 1 : Nat) := by push_cast; ring
    rw [this]

/-- Folding append-of-singleton over a list is append of its map. -/
theorem foldl_append_singleton {α β : Type} (f : α → β) :
    ∀ (l : List α) (acc : List β),
      l.foldl (fun out v => out ++ [f v]) acc = acc ++ l.map f := by
  intro l
  induction l with
  | nil => intro acc; simp
  | cons a l ih => intro acc; simp [ih]

/-- The nested matrix fold of parsePrometheusResult is the flattening of the
per-series maps, in series order then in-series order. -/
theorem matrix_foldl_flatten {α β : Type} (f : α → β) :
    ∀ (series : List (List α)) (acc : List β),
      series.foldl (fun out ser => ser.foldl (fun o v => o ++ [f v]) out) acc
        = acc ++ (series.map (fun ser => ser.map f)).flatten := by
  intro series
  induction series with
  | nil => intro acc; simp
  | cons s rest ih =>
    intro acc
    rw [List.foldl_cons, foldl_append_singleton, ih, List.map_cons, List.flatten_cons,
      List.append_assoc]

/-- ratFloor agrees with the Mathlib floor. -/
theorem ratFloor_eq_floor (q : Rat) : ratFloor q = ⌊q⌋ := by
  rw [Rat.floor_def]
  rfl

/-- ratCeil agrees with the Mathlib ceiling. -/
theorem ratCeil_eq_ceil (q : Rat) : ratCeil q = ⌈q⌉ := by
  unfold ratCeil
  rw [ratFloor_eq_floor, Int.floor_neg, neg_neg]

/-- The floor of an integer plus one half is that integer. -/
theorem floor_intCast_add_half (m : Int) : ratFloor ((m : Rat) + 1 / 2) = m := by
  rw [ratFloor_eq_floor, Int.floor_eq_iff]
  constructor
  · linarith
  · linarith

/-- mathRound is the identity on integers. -/
theorem mathRound_intCast (n : Int) : mathRound ((n : Int) : Rat) = n := by
  unfold mathRound
  by_cases h : ((n : Int) : Rat) < 0
  · rw [if_pos h]
    have : -((n : Int) : Rat) = ((-n : Int) : Rat) := by push_cast; ring
    rw [this, floor_intCast_add_half]
    ring
  · rw [if_neg h]
    exact floor_intCast_add_half n

/- Claim theorems. -/

/-- C1: for the predictive scaler, whenever the query and the predict call
both succeed and GetMetrics returns a metric value v, v equals goMax of the
predicted value and the last observed value of the queried window (the int64
conversion of the final sample, as the code derives it), so v is never less
than that last observation, and never less than the prediction. -/
theorem C1_predict_max_combination (results : List Item) (pred v : Int)
    (h : (predictKubeGetMetrics (.ok results) (.ok pred)).1 = [v]) :
    v = goMax pred (lastObserved results) ∧ lastObserved results ≤ v ∧ pred ≤ v := by
  simp only [predictKubeGetMetrics, doPredictRequest] at h
  split at h
  · simp at h
  · have hv : v = goMax pred (lastObserved results) := by
      simpa using h.symm
    refine ⟨hv, ?_, ?_⟩ <;> (rw [hv]; unfold goMax; split <;> omega)

/-- C1 witness: the spec scenario — samples (1, 5.0) and (2, 9.0) with a
predicted value of 7 give the metric value 9 = max(7, 9). -/
theorem C1_predict_max_combination_witness :
    (predictKubeGetMetrics (.ok [⟨1, 5, "m"⟩, ⟨2, 9, "m"⟩]) (.ok 7)).1 = [9] ∧
    (9 : Int) = goMax 7 (lastObserved [⟨1, 5, "m"⟩, ⟨2, 9, "m"⟩]) ∧
    lastObserved [⟨1, 5, "m"⟩, ⟨2, 9, "m"⟩] ≤ 9 ∧ (7 : Int) ≤ 9 := by
  have h : (predictKubeGetMetrics (.ok [⟨1, 5, "m"⟩, ⟨2, 9, "m"⟩]) (.ok 7)).1 = [9] := by
    decide
  exact ⟨h, C1_predict_max_combination _ 7 9 h⟩

/-- C2 counterexample: a successful query returning one sample of value 0,
with a failed health probe: IsActive returns true (the list is nonempty), but
the healthy-path derivation from the last observed value yields false — the
degraded boolean is not the same derivation as the healthy path. -/
theorem C2_counterexample :
    (predictKubeIsActive (.ok [⟨0, 0, "m"⟩]) .respNil).1 = true ∧
    (predictKubeIsActive (.ok [⟨0, 0, "m"⟩]) .healthy).1 = false ∧
    (predictKubeIsActive (.ok [⟨0, 0, "m"⟩]) .respNil).1 ≠
      (predictKubeIsActive (.ok [⟨0, 0, "m"⟩]) .healthy).1 := by
  refine ⟨?_, ?_, ?_⟩ <;> decide

/-- C2 (amended): when the query succeeds but the health probe fails or
returns no answer, the returned boolean is whether the query returned any
observation (result-list non-emptiness, not the healthy-path derivation from
the last observed value), and the probe failure is surfaced as a non-fatal
error alongside that boolean. -/
theorem C2_degraded_isActive (results : List Item) (h : HealthOutcome)
    (hne : h ≠ HealthOutcome.healthy) :
    (predictKubeIsActive (.ok results) h).1 = decide (0 < results.length) ∧
    ((predictKubeIsActive (.ok results) h).2).isSome = true := by
  cases h with
  | healthy => exact absurd rfl hne
  | respNil => exact ⟨rfl, rfl⟩
  | errResp e => exact ⟨rfl, rfl⟩

/-- C2 witness: the degraded activity check on a one-sample result with a nil
probe response. -/
theorem C2_degraded_isActive_witness :
    (HealthOutcome.respNil ≠ HealthOutcome.healthy) ∧
    ((predictKubeIsActive (.ok [⟨0, 0, "m"⟩]) .respNil).1
        = decide (0 < ([⟨0, 0, "m"⟩] : List Item).length) ∧
      ((predictKubeIsActive (.ok [⟨0, 0, "m"⟩]) .respNil).2).isSome = true) :=
  ⟨by decide, C2_degraded_isActive [⟨0, 0, "m"⟩] .respNil (by decide)⟩

/-- C3 counterexample: predictHorizon of 7 minutes with queryStep of 2 minutes
(both in nanoseconds): the code sends horizon 3 (Go integer division of the
two durations), while round(predictHorizon / d) = round(3.5) = 4. -/
theorem C3_counterexample :
    forecastHorizonSent 420000000000 120000000000 = 3 ∧
    specRoundHorizon 420000000000 120000000000 = 4 ∧
    forecastHorizonSent 420000000000 120000000000 ≠
      specRoundHorizon 420000000000 120000000000 := by
  have h1 : forecastHorizonSent 420000000000 120000000000 = 3 := by
    have ht : Int.tdiv 420000000000 (effectiveStepDuration 120000000000) = 3 := by decide
    unfold forecastHorizonSent
    rw [ht]
    exact mathRound_intCast 3
  have h2 : specRoundHorizon 420000000000 120000000000 = 4 := by
    unfold specRoundHorizon
    have he : effectiveStepDuration 120000000000 = 120000000000 := by decide
    rw [he]
    have hq : ((420000000000 : Int) : Rat) / ((120000000000 : Int) : Rat) = 7 / 2 := by
      norm_num
    rw [hq]
    unfold mathRound
    rw [if_neg (by norm_num)]
    have h4 : (7 : Rat) / 2 + 1 / 2 = ((4 : Int) : Rat) := by norm_num
    rw [h4, ratFloor_eq_floor, Int.floor_intCast]
  refine ⟨h1, h2, ?_⟩
  rw [h1, h2]
  decide

/-- C3 (amended): the forecast horizon sent equals the truncated Go integer
quotient of predictHorizon by the effective step — the outer math.Round acts
on an already-integral value and has no effect — and a queryStep of 0 is
replaced by the 5-minute default step before this computation. -/
theorem C3_forecast_horizon (ph st : Int) :
    forecastHorizonSent ph st = Int.tdiv ph (effectiveStepDuration st) ∧
    (st = 0 → forecastHorizonSent ph st = Int.tdiv ph defaultStep) := by
  constructor
  · exact mathRound_intCast _
  · intro h
    subst h
    have he : effectiveStepDuration 0 = defaultStep := by
      unfold effectiveStepDuration
      simp
    unfold forecastHorizonSent
    rw [he]
    exact mathRound_intCast _

/-- C3 witness: with queryStep 0 the horizon is the truncated quotient by the
default 5-minute step. -/
theorem C3_forecast_horizon_witness :
    forecastHorizonSent 420000000000 0 = Int.tdiv 420000000000 defaultStep :=
  (C3_forecast_horizon 420000000000 0).2 rfl

/-- C4 counterexample: the object-store scaler over an empty bucket with the
default scan bound: the query succeeds, the computed value is 0, yet
GetMetrics returns one zero-valued metric and no error — not an error with an
empty list. -/
theorem C4_counterexample :
    gcsGetMetrics 1000 (pureBucket 0) = ([0], none) ∧
    (gcsGetMetrics 1000 (pureBucket 0)).1 ≠ ([] : List Int) := by
  refine ⟨?_, ?_⟩ <;> decide

/-- C4 (amended): the zero-computed-value error policy belongs to the
predictive scaler only: its GetMetrics maps a computed value of exactly 0 to
an error with an empty result list, while the object-store GetMetrics returns
a successfully computed zero count as an ordinary zero-valued metric with no
error. -/
theorem C4_zero_metric (q : Except String (List Item)) (p : Except String Int)
    (steps : List (Option String)) (maxScan : Int)
    (hpk : doPredictRequest q p = .ok 0)
    (hgcs : getItemCount steps maxScan = (0, none)) :
    predictKubeGetMetrics q p = ([], some ("empty response after predict request")) ∧
    gcsGetMetrics maxScan steps = ([0], none) := by
  constructor
  · unfold predictKubeGetMetrics
    rw [hpk]
    rfl
  · unfold gcsGetMetrics
    rw [hgcs]

/-- C4 witness: an empty query result with predicted value 0, and an empty
bucket under the default scan bound. -/
theorem C4_zero_metric_witness :
    doPredictRequest (.ok []) (.ok 0) = .ok 0 ∧
    getItemCount (pureBucket 0) 1000 = (0, none) ∧
    predictKubeGetMetrics (.ok []) (.ok 0)
        = ([], some ("empty response after predict request")) ∧
    gcsGetMetrics 1000 (pureBucket 0) = ([0], none) := by
  have h1 : doPredictRequest (.ok ([] : List Item)) (.ok 0) = .ok 0 := rfl
  have h2 : getItemCount (pureBucket 0) 1000 = (0, none) := rfl
  have h := C4_zero_metric (.ok []) (.ok 0) (pureBucket 0) 1000 h1 h2
  exact ⟨h1, h2, h.1, h.2⟩

/-- C5: for every nonnegative scan bound, the count getItemCount returns never
exceeds the bound over any iterator content; over an error-free bucket holding
at least bound-many items it returns exactly the bound with no error, and over
one with at most bound-many items it returns the exact item count. -/
theorem C5_saturating_count (n : Nat) (maxCount : Int) (h0 : 0 ≤ maxCount) :
    (∀ steps, (getItemCount steps maxCount).1 ≤ maxCount) ∧
    (maxCount ≤ (n : Int) → getItemCount (pureBucket n) maxCount = (maxCount, none)) ∧
    ((n : Int) ≤ maxCount → getItemCount (pureBucket n) maxCount = ((n : Int), none)) := by
  refine ⟨?_, ?_, ?_⟩
  · intro steps
    exact getItemCountLoop_le maxCount h0 steps 0 h0
  · intro hn
    unfold getItemCount pureBucket
    exact getItemCountLoop_saturate maxCount n 0 h0 (by omega)
  · intro hn
    unfold getItemCount pureBucket
    have h := getItemCountLoop_exhaust maxCount n 0 (by omega)
    simpa using h

/-- C5 witness: the spec scenario — a scan bound of 3 over a bucket of 10
items returns exactly 3. -/
theorem C5_saturating_count_witness :
    ((0 : Int) ≤ 3) ∧ ((3 : Int) ≤ ((10 : Nat) : Int)) ∧
    getItemCount (pureBucket 10) 3 = (3, none) := by
  have h := (C5_saturating_count 10 3 (by decide)).2.1 (by decide)
  exact ⟨by decide, by decide, h⟩

/-- C6: when an enumeration error is encountered after k items (k below the
bound), a bucket-missing error yields a zero count and no error, and any other
error yields the partial count k together with the propagated error. -/
theorem C6_enumeration_errors (k : Nat) (msg : String) (rest : List (Option String))
    (maxCount : Int) (h : (k : Int) < maxCount) :
    getItemCount (List.replicate k none ++ some msg :: rest) maxCount
      = if bucketNotExist msg then (0, none) else ((k : Int), some msg) := by
  unfold getItemCount
  have he := getItemCountLoop_err maxCount msg rest k 0 (by omega)
  simpa using he

/-- C6 witness: a bucket-missing error after 2 items under a bound of 10
yields (0, none). -/
theorem C6_enumeration_errors_witness :
    ((2 : Int) < 10) ∧
    getItemCount (List.replicate 2 none ++ some ("storage: bucket doesn\x27t exist") :: []) 10
      = (0, none) := by
  have h := C6_enumeration_errors 2 ("storage: bucket doesn\x27t exist") [] 10 (by decide)
  refine ⟨by decide, ?_⟩
  rw [h]
  decide

/-- C7: normalizing a multi-series range (matrix) result flattens all samples
in series order then in-series order, each Observation retaining its original
timestamp and numeric value, so the output holds exactly the total sample
count; an unrecognized result shape yields the invalid-metric-type error; and
an unparseable string sample fails the whole call. -/
theorem C7_normalization (metricName : String) (series : List (List (Int × Rat)))
    (t : Int) (raw : String) (hraw : parseGoFloat raw = none) :
    parsePrometheusResult metricName (.matrix series)
      = .ok ((series.map (fun ser => ser.map (mkItem metricName))).flatten) ∧
    ((series.map (fun ser => ser.map (mkItem metricName))).flatten).length
      = (series.map List.length).sum ∧
    parsePrometheusResult metricName .noneVal = .error invalidMetricTypeErr ∧
    parsePrometheusResult metricName (.strVal t raw) = .error ("float parsing error") := by
  refine ⟨?_, ?_, rfl, ?_⟩
  · simp only [parsePrometheusResult]
    rw [matrix_foldl_flatten (mkItem metricName) series []]
    rw [List.nil_append]
  · rw [List.length_flatten, List.map_map]
    have hc : (List.length ∘ fun ser => List.map (mkItem metricName) ser)
        = (List.length : List (Int × Rat) → Nat) := by
      funext ser
      simp
    rw [hc]
  · simp only [parsePrometheusResult]
    rw [hraw]

/-- C7 witness: a two-series matrix with three samples in total normalizes to
the three corresponding Observations in order; the string "abc" is
unparseable. -/
theorem C7_normalization_witness :
    parseGoFloat ("abc") = none ∧
    parsePrometheusResult ("mn") (.matrix [[(1, 5), (2, 6)], [(3, 7)]])
      = .ok (([[((1 : Int), (5 : Rat)), (2, 6)], [(3, 7)]].map
          (fun ser => ser.map (mkItem ("mn")))).flatten) ∧
    parsePrometheusResult ("mn") (.strVal 0 ("abc")) = .error ("float parsing error") := by
  have hraw : parseGoFloat ("abc") = none := by decide
  have h := C7_normalization ("mn") [[(1, 5), (2, 6)], [(3, 7)]] 0 ("abc") hraw
  exact ⟨hraw, h.1, h.2.2.2⟩

/-- C8: a configuration missing any required field fails validation (parse
success forces every required field to be present); each required field has
its own error message, pairwise distinct, produced exactly when that field is
removed from an otherwise valid configuration; and whenever metadata parsing
fails, neither constructor attempts any backend connection. -/
theorem C8_metadata_validation :
    (∀ config meta, parsePredictKubeMetadata config = .ok meta →
      ((config.triggerMetadata.lookup ("query")).isSome = true ∧
       (config.triggerMetadata.lookup ("prometheusAddress")).isSome = true ∧
       (config.triggerMetadata.lookup ("predictHorizon")).isSome = true ∧
       (config.triggerMetadata.lookup ("queryStep")).isSome = true ∧
       (config.triggerMetadata.lookup ("historyTimeWindow")).isSome = true ∧
       (config.triggerMetadata.lookup ("threshold")).isSome = true ∧
       (config.authParams.lookup ("apiKey")).isSome = true)) ∧
    (∀ config meta, parseGcsMetadata config = .ok meta →
      (config.triggerMetadata.lookup ("bucketName")).isSome = true) ∧
    List.Nodup
      ((pkMissingCases.map Prod.snd) ++ ["no api key given", "no bucket name given"]) ∧
    (∀ p ∈ pkMissingCases,
      parsePredictKubeMetadata
        { validPKConfig with triggerMetadata := removeKey p.1 validPKConfig.triggerMetadata }
        = .error p.2) ∧
    parsePredictKubeMetadata { validPKConfig with authParams := [] }
      = .error ("no api key given") ∧
    parseGcsMetadata
      { validGcsConfig with
        triggerMetadata := removeKey ("bucketName") validGcsConfig.triggerMetadata }
      = .error ("no bucket name given") ∧
    (∀ config e b2 b3, parsePredictKubeMetadata config = .error e →
      newPredictKubeScaler config true b2 b3
        = (.error ("error parsing PredictKube metadata: " ++ e), false)) ∧
    (∀ config e b, parseGcsMetadata config = .error e →
      newGcsScaler config true b
        = (.error ("error parsing GCP storage metadata: " ++ e), false)) := by
  refine ⟨?_, ?_, by decide, ?_, by rfl, by rfl, ?_, ?_⟩
  · intro config meta h
    unfold parsePredictKubeMetadata at h
    repeat' split at h
    all_goals simp_all
  · intro config meta h
    unfold parseGcsMetadata at h
    repeat' split at h
    all_goals simp_all
  · intro p hp
    fin_cases hp <;> rfl
  · intro config e b2 b3 hp
    simp [newPredictKubeScaler, hp]
  · intro config e b hp
    simp [newGcsScaler, hp]

/-- C8 witness: removing the query field from an otherwise valid PredictKube
configuration yields exactly the query-missing error. -/
theorem C8_metadata_validation_witness :
    (("query", "no query given") ∈ pkMissingCases) ∧
    parsePredictKubeMetadata
      { validPKConfig with
        triggerMetadata := removeKey ("query") validPKConfig.triggerMetadata }
      = .error ("no query given") :=
  ⟨by decide, C8_metadata_validation.2.2.2.1 ("query", "no query given") (by decide)⟩

/-- C9: the object-store IsActive consults getItemCount with a scan bound of
exactly 1: its result is independent of the configured metadata (in particular
of maxBucketItemsToScan and targetObjectCount), it is true precisely when an
error-free bucket holds at least one item, and a bucket-missing error yields
(false, none). -/
theorem C9_isActive_bound_one (m1 m2 : gcsMetadata) (n : Nat) (msg : String)
    (rest : List (Option String)) (hmsg : bucketNotExist msg = true) :
    (∀ steps, gcsIsActive m1 steps = gcsIsActive m2 steps) ∧
    gcsIsActive m1 (pureBucket n) = (decide (1 ≤ n), none) ∧
    gcsIsActive m1 (some msg :: rest) = (false, none) := by
  refine ⟨fun steps => rfl, ?_, ?_⟩
  · cases n with
    | zero => rfl
    | succ k =>
      unfold gcsIsActive
      have h : getItemCount (pureBucket (k + 1)) 1 = (1, none) := by
        unfold getItemCount pureBucket
        have hs := getItemCountLoop_saturate 1 (k + 1) 0 (by norm_num) (by push_cast; omega)
        simpa using hs
      rw [h]
      have h1 : (1 : Nat) ≤ k + 1 := by omega
      simp [h1]
  · unfold gcsIsActive getItemCount
    rw [getItemCountLoop_cons_some, if_pos (show (0 : Int) < 1 by norm_num), if_pos hmsg]
    rfl

/-- C9 witness: a seven-item bucket is active; a missing bucket is inactive
with no error. -/
theorem C9_isActive_bound_one_witness :
    bucketNotExist ("x bucket doesn\x27t exist") = true ∧
    gcsIsActive ⟨"b", 1000, 100, "m"⟩ (pureBucket 7) = (decide (1 ≤ 7), none) ∧
    gcsIsActive ⟨"b", 1000, 100, "m"⟩ (some ("x bucket doesn\x27t exist") :: []) = (false, none) := by
  have h := C9_isActive_bound_one ⟨"b", 1000, 100, "m"⟩ ⟨"c", 1, 1, "n"⟩ 7
    ("x bucket doesn\x27t exist") [] (by decide)
  exact ⟨by decide, h.2.1, h.2.2⟩

/-- C10: parseGcsMetadata accepts any parseable integer for
maxBucketItemsToScan, including non-positive values; for a non-positive bound
getItemCount returns (0, none) on any iterator content without inspecting it,
so such a configuration constructs successfully and GetMetrics reports a zero
count with no error. -/
theorem C10_nonpositive_bound (s : String) (v : Int) (steps : List (Option String))
    (hs : parseGoInt64 s = some v) (hv : v ≤ 0) :
    parseGcsMetadata (gcsConfigWithMaxScan s)
      = .ok { bucketName := "test-bucket", maxBucketItemsToScan := v,
              targetObjectCount := 100, metricName := mkGcsMetricName 0 ("test-bucket") } ∧
    getItemCount steps v = (0, none) ∧
    gcsGetMetrics v steps = ([0], none) := by
  have hcount : getItemCount steps v = (0, none) := by
    unfold getItemCount
    cases steps with
    | nil => rw [getItemCountLoop_nil]
    | cons head rest =>
      cases head with
      | none => rw [getItemCountLoop_cons_none, if_neg (by omega)]
      | some msg => rw [getItemCountLoop_cons_some, if_neg (by omega)]
  refine ⟨?_, hcount, ?_⟩
  · simp [parseGcsMetadata, gcsConfigWithMaxScan, List.lookup, hs, getAuthConfigs]
  · unfold gcsGetMetrics
    rw [hcount]

/-- C10 witness: maxBucketItemsToScan of -5 parses, constructs, and forces a
zero count over a two-item bucket. -/
theorem C10_nonpositive_bound_witness :
    parseGoInt64 ("-5") = some (-5) ∧ ((-5 : Int) ≤ 0) ∧
    (parseGcsMetadata (gcsConfigWithMaxScan ("-5"))
        = .ok { bucketName := "test-bucket", maxBucketItemsToScan := -5,
                targetObjectCount := 100, metricName := mkGcsMetricName 0 ("test-bucket") } ∧
      getItemCount [none, none] (-5) = (0, none) ∧
      gcsGetMetrics (-5) [none, none] = ([0], none)) := by
  have h := C10_nonpositive_bound ("-5") (-5) [none, none] (by decide) (by decide)
  exact ⟨by decide, by decide, h⟩

end KedaSpec
